import Mathlib

/-!
Shallow embedding of `src/homegit.py` (homegit, version 0.1.4), a CLI utility
managing a bare git repository that tracks files in the user's home directory.

Modelling choices:
* Configuration (source lines 15-21) is an explicit record; the source derives
  it from environment variables once at startup.
* The filesystem state the program consults or mutates is just the existence of
  the storage root (`HOMEGIT_DIR`) and of the bare-repo directory
  (`BARE_REPO_DIR`), captured by the record `FS`.
* Every invocation of the external tool is resolved against a `GitResult`
  oracle describing how the spawned process would behave: whether the launch
  succeeds at all (`found`, false models the `FileNotFoundError` that
  `subprocess.run` raises when the executable is missing), its exit code and
  its captured standard output (as raw bytes, since the source never passes
  `text=True`).
* Python exceptions become explicit result values (`PyExc` inside `StepExit`);
  `sys.exit` becomes a `Termination` value.  Python's `==` between values of
  different runtime types (`bytes`, `str`, `None`) is embedded by `pyEq` over
  the small universe `PyVal` of values actually compared by the source.
* Handlers record their observable effects: lines printed to standard output,
  the argument vectors of attempted external-tool invocations, and the paths
  probed by `os.path.isdir`.
-/

namespace Homegit

/-- Configuration derived from the environment (source lines 15-20):
`HOME`, `HOMEGIT_DIR` (default `HOME + "/.homegit"`), `HOMEGIT_REPO`
(default `"default"`), `GIT_EXECUTABLE`.  `HOME` is taken to be an absolute,
normalized path, so `os.path.abspath(HOME)` is `HOME` itself. -/
structure Config where
  home : String
  homegitDir : String
  homegitRepo : String
  gitExecutable : String
deriving DecidableEq

/-- Source line 20: `BARE_REPO_DIR = f"{HOMEGIT_DIR}/{HOMEGIT_REPO}"`. -/
def Config.bareRepoDir (cfg : Config) : String :=
  cfg.homegitDir ++ "/" ++ cfg.homegitRepo

/-- The configuration obtained when only `HOME` and the executable are set and
all other environment variables take their defaults (source lines 18-19). -/
def configDefaults (home gitExecutable : String) : Config :=
  { home := home
    homegitDir := home ++ "/.homegit"
    homegitRepo := "default"
    gitExecutable := gitExecutable }

/-- A concrete default configuration used to evaluate the model. -/
def cfgDefault : Config := configDefaults "/home/user" "/usr/bin/git"

/-- Model of `IGNORED_ARGS` (source line 21). -/
def IGNORED_ARGS : List String := ["--bare", "--git-dir", "--work-tree"]

/-- The `Command` enum (source line 24): the five named commands plus `GIT`. -/
inductive Command
  | INIT
  | CLONE
  | HELP
  | VERSION
  | UNTRACK
  | GIT
deriving DecidableEq

/-- Model of `COMMANDS` (source line 23). -/
def COMMANDS : List String := ["INIT", "CLONE", "HELP", "VERSION", "UNTRACK"]

/-- Model of `Command[cmd]`: enum member lookup by name, as used on source line 32. -/
def commandNamed (s : String) : Command :=
  if s = "INIT" then Command.INIT
  else if s = "CLONE" then Command.CLONE
  else if s = "HELP" then Command.HELP
  else if s = "VERSION" then Command.VERSION
  else if s = "UNTRACK" then Command.UNTRACK
  else Command.GIT

/-- Python's `str.lower()` applied character-wise; for the ASCII command
names in `COMMANDS` this is exactly ASCII lowercasing. -/
def pyLower (s : String) : String := String.mk (s.data.map Char.toLower)

/-- Model of `CONVENIENCE_COMMANDS` (source lines 25-30). -/
def CONVENIENCE_COMMANDS : List (String × Command) :=
  [("--version", Command.VERSION), ("-v", Command.VERSION),
   ("--help", Command.HELP), ("-h", Command.HELP)]

/-- Model of `command_dict` (source lines 31-33): keys are `cmd.lower()` for each
entry of `COMMANDS`, plus the convenience flags.  All keys are distinct, so
the association list represents the Python dict faithfully. -/
def command_dict : List (String × Command) :=
  (COMMANDS.map fun cmd => (pyLower cmd, commandNamed cmd)) ++ CONVENIENCE_COMMANDS

/-- Model of `ParsedCommand` (source line 35).  The Python `set` of ignored arguments is
represented by a duplicate-free list. -/
structure ParsedCommand where
  command : Option Command
  ignored_args : List String
deriving DecidableEq

/-- Model of `parse_command` (source lines 255-261):
`command_dict.get(sys.argv[1], Command.GIT) if len(sys.argv) > 1 else None`,
and the set of all tokens of `sys.argv` that are in `IGNORED_ARGS`. -/
def parse_command (argv : List String) : ParsedCommand :=
  { command := (argv[1]?).map fun tok => ((command_dict.lookup tok).getD Command.GIT)
    ignored_args := (argv.filter fun a => decide (a ∈ IGNORED_ARGS)).dedup }

/-- The universe of Python values compared by `clone_repo` (source lines
127-133): `None`, the `bytes` captured from a subprocess, and `str`. -/
inductive PyVal
  | pyNone
  | pyBytes (b : List Nat)
  | pyStr (s : String)
deriving DecidableEq

/-- Python `==` on `PyVal`: values of different runtime types are never equal
(in particular `bytes` never equals `str`). -/
def pyEq : PyVal → PyVal → Bool
  | PyVal.pyNone, PyVal.pyNone => true
  | PyVal.pyBytes a, PyVal.pyBytes b => a == b
  | PyVal.pyStr a, PyVal.pyStr b => a == b
  | _, _ => false

/-- The filesystem facts the program reads or writes: existence of the storage
root `HOMEGIT_DIR` and of the bare-repo directory `BARE_REPO_DIR`. -/
structure FS where
  homegitDirExists : Bool
  bareRepoDirExists : Bool
deriving DecidableEq

/-- Model of `bare_repo_dir_exists` (source lines 89-91): `os.path.isdir(BARE_REPO_DIR)`. -/
def bare_repo_dir_exists (fs : FS) : Bool := fs.bareRepoDirExists

/-- Oracle for one external-tool invocation: whether the launch succeeds
(`found = false` models `FileNotFoundError` at spawn time), the exit code,
and the captured standard-output bytes. -/
structure GitResult where
  found : Bool
  returncode : Int
  stdout : List Nat
deriving DecidableEq

/-- Possible outcomes of `run` (the `subprocess.run` wrapper):
a completed process, a `CalledProcessError` (when `check` is set and the exit
code is non-zero), or a `FileNotFoundError` at launch. -/
inductive RunRes
  | completed (r : GitResult)
  | cpe (code : Int)
  | fnf
deriving DecidableEq

/-- Model of `run` (source lines 59-66): wrapper for `subprocess.run` with
`check=True` by default.  `launchOk` is whether spawning succeeds (executable
present and, when a `cwd` is passed, that directory present); verbose logging
is output-only and not modelled. -/
def run (check launchOk : Bool) (r : GitResult) : RunRes :=
  if !launchOk then RunRes.fnf
  else if check && !(r.returncode == 0) then RunRes.cpe r.returncode
  else RunRes.completed r

/-- Longest common leading character sequence of two character lists. -/
def commonLead : List Char → List Char → List Char
  | x :: xs, y :: ys => if x = y then x :: commonLead xs ys else []
  | _, _ => []

/-- Model of `os.path.commonprefix` on a two-element list of strings: their longest
common leading substring (a character-wise operation, not path-aware). -/
def stringCommonLead (a b : String) : String := String.mk (commonLead a.data b.data)

/-- Model of `is_within_home_dir` (source lines 69-72):
`os.path.commonprefix([os.getcwd(), home]) == home` with
`home = os.path.abspath(HOME)` (here `HOME` itself, assumed absolute). -/
def is_within_home_dir (cwd home : String) : Bool :=
  stringCommonLead cwd home == home

/-- The spec's notion of the current working directory being inside the home
directory: equal to it, or strictly below it component-wise.  Stated only for
comparison with the source's `is_within_home_dir`. -/
def withinHomePathSpec (cwd home : String) : Bool :=
  cwd == home || (home ++ "/").data.isPrefixOf cwd.data

/-- The Python exceptions that the source raises or lets propagate. -/
inductive PyExc
  | existingRepoDir
  | cloneFailure
  | initFailure
  | settingShowUntrackedFilesFailure
  | fileNotFoundError
  | valueError
deriving DecidableEq

/-- How a top-level command handler ends: normal return, `sys.exit(code)`,
`sys.exit(message)` (which exits with status 1), or an unhandled exception
(Python then terminates with a traceback and status 1). -/
inductive Termination
  | normal
  | exitCode (code : Int)
  | exitMsg (msg : String)
  | unhandled (e : PyExc)
deriving DecidableEq

/-- The process exit status produced by each kind of termination. -/
def Termination.code : Termination → Int
  | Termination.normal => 0
  | Termination.exitCode c => c
  | Termination.exitMsg _ => 1
  | Termination.unhandled _ => 1

/-- Model of `friendly_error_messages` (source lines 94-109): the context manager that
turns the five known exceptions into a `sys.exit` with a human-readable
message; any other exception propagates unhandled. -/
def friendly_error_messages (cfg : Config) : PyExc → Termination
  | PyExc.cloneFailure =>
      Termination.exitMsg ("Error cloning repo (" ++ cfg.homegitRepo ++ ")")
  | PyExc.existingRepoDir =>
      Termination.exitMsg ("Existing repo: " ++ cfg.homegitRepo ++ " (" ++ cfg.bareRepoDir ++ ")")
  | PyExc.fileNotFoundError =>
      Termination.exitMsg ("Error executing git: No such file or directory: " ++ cfg.gitExecutable)
  | PyExc.initFailure =>
      Termination.exitMsg ("Error initializing repo (" ++ cfg.homegitRepo ++ ")")
  | PyExc.settingShowUntrackedFilesFailure =>
      Termination.exitMsg ("Error setting status.showUntrackedFiles for " ++ cfg.homegitRepo)
  | PyExc.valueError => Termination.unhandled PyExc.valueError

/-- How a lifecycle action ends: normal return, a raised exception, or a
direct `sys.exit(code)` from inside the action. -/
inductive StepExit
  | ok
  | raised (e : PyExc)
  | exited (code : Int)
deriving DecidableEq

/-- One lifecycle action together with its observable effects: the resulting
filesystem state, printed lines, attempted external-tool invocations (each an
argument vector), and the paths probed by `os.path.isdir`. -/
structure Step where
  fs : FS
  prints : List String
  gitCalls : List (List String)
  stats : List String
  res : StepExit
deriving DecidableEq

/-- Sequencing of actions: the continuation runs only when the first action
returned normally; effects accumulate in order. -/
def Step.andThen (s : Step) (k : FS → Step) : Step :=
  match s.res with
  | StepExit.ok =>
      let t := k s.fs
      { fs := t.fs
        prints := s.prints ++ t.prints
        gitCalls := s.gitCalls ++ t.gitCalls
        stats := s.stats ++ t.stats
        res := t.res }
  | _ => s

/-- A finished top-level command with its observable effects. -/
structure Outcome where
  fs : FS
  prints : List String
  gitCalls : List (List String)
  stats : List String
  term : Termination
deriving DecidableEq

/-- Running a body under `with friendly_error_messages()`: a raised exception
is translated (or propagates unhandled), an inner `sys.exit` passes through
untouched, and a normal return terminates normally. -/
def withFriendly (cfg : Config) (s : Step) : Outcome :=
  { fs := s.fs
    prints := s.prints
    gitCalls := s.gitCalls
    stats := s.stats
    term :=
      match s.res with
      | StepExit.ok => Termination.normal
      | StepExit.exited c => Termination.exitCode c
      | StepExit.raised e => friendly_error_messages cfg e }

/-- Model of `get_remote_origin_url` (source lines 75-86): runs
`git --git-dir=... --work-tree=... config --get remote.origin.url` with
`capture_output=True, check=False` and returns the captured standard output
(bytes!) when the exit code is 0, else `None`.  A launch failure raises
`FileNotFoundError`.  Returns the attempted invocation and the result. -/
def get_remote_origin_url (cfg : Config) (r : GitResult) :
    List (List String) × Except PyExc PyVal :=
  let command :=
    [cfg.gitExecutable, "--git-dir=" ++ cfg.bareRepoDir, "--work-tree=" ++ cfg.home,
     "config", "--get", "remote.origin.url"]
  match run false r.found r with
  | RunRes.fnf => ([command], Except.error PyExc.fileNotFoundError)
  | RunRes.cpe _ => ([command], Except.error PyExc.fileNotFoundError)
  | RunRes.completed cp =>
      ([command],
       Except.ok (if cp.returncode == 0 then PyVal.pyBytes cp.stdout else PyVal.pyNone))

/-- Model of `checkout_repo` (source lines 112-121): runs
`git --git-dir=... --work-tree=... checkout` with `check=False` and reports
whether the exit code was 0.  A launch failure raises `FileNotFoundError`. -/
def checkout_repo (cfg : Config) (r : GitResult) :
    List (List String) × Except PyExc Bool :=
  let command :=
    [cfg.gitExecutable, "--git-dir=" ++ cfg.bareRepoDir, "--work-tree=" ++ cfg.home,
     "checkout"]
  match run false r.found r with
  | RunRes.fnf => ([command], Except.error PyExc.fileNotFoundError)
  | RunRes.cpe _ => ([command], Except.error PyExc.fileNotFoundError)
  | RunRes.completed cp => ([command], Except.ok (cp.returncode == 0))

/-- Model of `clone_repo` (source lines 124-152).  `rConfig` is the oracle for the
`config --get remote.origin.url` invocation, `rClone` for `git clone`.
When the bare-repo directory exists and the configured origin differs from the
requested URL it raises `ExistingRepoDir`; when they are equal it prints the
already-cloned notice and exits 0; otherwise it creates `HOMEGIT_DIR`
(passing on `FileExistsError`) and `BARE_REPO_DIR`, then runs
`git clone --bare` (a successful run leaves the freshly made directories in
place; `CalledProcessError` becomes `CloneFailure`). -/
def clone_repo (cfg : Config) (fs : FS) (git_repo_url : String)
    (rConfig rClone : GitResult) : Step :=
  let dir_exists := bare_repo_dir_exists fs
  if dir_exists then
    match get_remote_origin_url cfg rConfig with
    | (calls, Except.error e) =>
        { fs := fs, prints := [], gitCalls := calls, stats := [cfg.bareRepoDir],
          res := StepExit.raised e }
    | (calls, Except.ok existing_repo_url) =>
        if !(pyEq existing_repo_url (PyVal.pyStr git_repo_url)) then
          { fs := fs, prints := [], gitCalls := calls, stats := [cfg.bareRepoDir],
            res := StepExit.raised PyExc.existingRepoDir }
        else
          { fs := fs
            prints := ["Repo (" ++ cfg.homegitRepo ++ ") is already cloned"]
            gitCalls := calls, stats := [cfg.bareRepoDir]
            res := StepExit.exited 0 }
  else
    -- existing_repo_url is None here, and None == git_repo_url is False,
    -- so control falls through to the directory creation.
    let fs1 : FS := { homegitDirExists := true, bareRepoDirExists := true }
    let command := [cfg.gitExecutable, "clone", "--bare", git_repo_url, cfg.bareRepoDir]
    match run true rClone.found rClone with
    | RunRes.fnf =>
        { fs := fs1, prints := [], gitCalls := [command], stats := [cfg.bareRepoDir],
          res := StepExit.raised PyExc.fileNotFoundError }
    | RunRes.cpe _ =>
        { fs := fs1, prints := [], gitCalls := [command], stats := [cfg.bareRepoDir],
          res := StepExit.raised PyExc.cloneFailure }
    | RunRes.completed cp =>
        if !(cp.returncode == 0) then
          { fs := fs1, prints := [], gitCalls := [command], stats := [cfg.bareRepoDir],
            res := StepExit.raised PyExc.cloneFailure }
        else
          { fs := fs1, prints := [], gitCalls := [command], stats := [cfg.bareRepoDir],
            res := StepExit.ok }

/-- Model of `init_repo` (source lines 155-167): raises `ExistingRepoDir` when the
bare-repo directory exists; otherwise runs `git init --bare BARE_REPO_DIR`
with `cwd=HOMEGIT_DIR` (so the launch fails with `FileNotFoundError` when the
executable is missing or the storage root does not exist — the function never
creates any directory itself; on success the external tool creates the
bare-repo directory).  `CalledProcessError` becomes `InitFailure`. -/
def init_repo (cfg : Config) (fs : FS) (r : GitResult) : Step :=
  if bare_repo_dir_exists fs then
    { fs := fs, prints := [], gitCalls := [], stats := [cfg.bareRepoDir],
      res := StepExit.raised PyExc.existingRepoDir }
  else
    let command := [cfg.gitExecutable, "init", "--bare", cfg.bareRepoDir]
    match run true (r.found && fs.homegitDirExists) r with
    | RunRes.fnf =>
        { fs := fs, prints := [], gitCalls := [command], stats := [cfg.bareRepoDir],
          res := StepExit.raised PyExc.fileNotFoundError }
    | RunRes.cpe _ =>
        { fs := fs, prints := [], gitCalls := [command], stats := [cfg.bareRepoDir],
          res := StepExit.raised PyExc.initFailure }
    | RunRes.completed cp =>
        if !(cp.returncode == 0) then
          { fs := fs, prints := [], gitCalls := [command], stats := [cfg.bareRepoDir],
            res := StepExit.raised PyExc.initFailure }
        else
          { fs := { fs with bareRepoDirExists := true }
            prints := [], gitCalls := [command], stats := [cfg.bareRepoDir]
            res := StepExit.ok }

/-- Model of `do_not_show_untracked_files` (source lines 170-187): runs
`git --git-dir=... --work-tree=... config --local status.showUntrackedFiles no`
with `cwd=HOMEGIT_DIR`; `CalledProcessError` or a non-zero exit becomes
`SettingShowUntrackedFilesFailure`, a launch failure `FileNotFoundError`. -/
def do_not_show_untracked_files (cfg : Config) (fs : FS) (r : GitResult) : Step :=
  let command :=
    [cfg.gitExecutable, "--git-dir=" ++ cfg.bareRepoDir, "--work-tree=" ++ cfg.home,
     "config", "--local", "status.showUntrackedFiles", "no"]
  match run true (r.found && fs.homegitDirExists) r with
  | RunRes.fnf =>
      { fs := fs, prints := [], gitCalls := [command], stats := [],
        res := StepExit.raised PyExc.fileNotFoundError }
  | RunRes.cpe _ =>
      { fs := fs, prints := [], gitCalls := [command], stats := [],
        res := StepExit.raised PyExc.settingShowUntrackedFilesFailure }
  | RunRes.completed cp =>
      if !(cp.returncode == 0) then
        { fs := fs, prints := [], gitCalls := [command], stats := [],
          res := StepExit.raised PyExc.settingShowUntrackedFilesFailure }
      else
        { fs := fs, prints := [], gitCalls := [command], stats := [], res := StepExit.ok }

/-- Model of `run_init` (source lines 206-211): under `friendly_error_messages`,
`init_repo` then `do_not_show_untracked_files` then the success print. -/
def run_init (cfg : Config) (fs : FS) (rInit rCfgSet : GitResult) : Outcome :=
  withFriendly cfg
    ((init_repo cfg fs rInit).andThen fun fs1 =>
      (do_not_show_untracked_files cfg fs1 rCfgSet).andThen fun fs2 =>
        { fs := fs2, prints := ["Initialized " ++ cfg.homegitRepo ++ " repo"],
          gitCalls := [], stats := [], res := StepExit.ok })

/-- Model of `run_clone` (source lines 214-223): first the tuple unpacking
`_exec, _cmd, git_repo_url = sys.argv`, which raises an unhandled `ValueError`
unless `sys.argv` has exactly three elements — this happens before the
`friendly_error_messages` block and before any repository-state check,
directory creation or external-tool invocation.  Then, under
`friendly_error_messages`: `clone_repo`, `do_not_show_untracked_files`,
`checkout_repo` (a failed checkout only prints a warning), and the success
print. -/
def run_clone (cfg : Config) (argv : List String) (fs : FS)
    (rConfig rClone rCfgSet rCheckout : GitResult) : Outcome :=
  match argv with
  | [_exec, _cmd, git_repo_url] =>
      withFriendly cfg
        ((clone_repo cfg fs git_repo_url rConfig rClone).andThen fun fs1 =>
          (do_not_show_untracked_files cfg fs1 rCfgSet).andThen fun fs2 =>
            match checkout_repo cfg rCheckout with
            | (calls, Except.error e) =>
                { fs := fs2, prints := [], gitCalls := calls, stats := [],
                  res := StepExit.raised e }
            | (calls, Except.ok checkedOut) =>
                { fs := fs2
                  prints :=
                    (if checkedOut then []
                     else ["Warning: could not checkout latest changes (" ++ cfg.homegitRepo ++ ")"])
                    ++ ["Cloned " ++ cfg.homegitRepo ++ " repo"]
                  gitCalls := calls, stats := [], res := StepExit.ok })
  | _ =>
      { fs := fs, prints := [], gitCalls := [], stats := [],
        term := Termination.unhandled PyExc.valueError }

/-- Model of `run_untrack` (source lines 226-229): `shutil.rmtree(BARE_REPO_DIR)`
unconditionally — there is no prior existence check (no `os.path.isdir`
probe), so when the directory is absent `rmtree` raises `FileNotFoundError`,
which propagates unhandled (the handler is not wrapped in
`friendly_error_messages`); when removal completes the success line prints. -/
def run_untrack (cfg : Config) (fs : FS) : Outcome :=
  if fs.bareRepoDirExists then
    { fs := { fs with bareRepoDirExists := false }
      prints := ["Stopped tracking homegit repo at " ++ cfg.bareRepoDir]
      gitCalls := [], stats := [], term := Termination.normal }
  else
    { fs := fs, prints := [], gitCalls := [], stats := [],
      term := Termination.unhandled PyExc.fileNotFoundError }

/-- Model of `run_git` (source lines 232-252): exits with the unknown-repo message when
the bare-repo directory is absent, with the location message when the current
working directory is not accepted by `is_within_home_dir`; otherwise runs
`git --git-dir=... --work-tree=...` followed by `sys.argv[1:]` unmodified.
The `run` call keeps the default `check=True`, so a non-zero exit raises
`CalledProcessError`, which the handler re-raises as
`SettingShowUntrackedFilesFailure` inside `friendly_error_messages`; only a
zero exit reaches `sys.exit(completed_process.returncode)`. -/
def run_git (cfg : Config) (argv : List String) (cwd : String) (fs : FS)
    (r : GitResult) : Outcome :=
  if !(bare_repo_dir_exists fs) then
    { fs := fs, prints := [], gitCalls := [], stats := [cfg.bareRepoDir],
      term := Termination.exitMsg
        ("Unknown repo: " ++ cfg.homegitRepo ++ " (" ++ cfg.bareRepoDir ++ ")") }
  else if !(is_within_home_dir cwd cfg.home) then
    { fs := fs, prints := [], gitCalls := [], stats := [cfg.bareRepoDir],
      term := Termination.exitMsg
        ("The current working directory must be run within the " ++ cfg.home
          ++ " directory (" ++ cwd ++ ")") }
  else
    let command :=
      [cfg.gitExecutable, "--git-dir=" ++ cfg.bareRepoDir, "--work-tree=" ++ cfg.home]
      ++ argv.drop 1
    match run true r.found r with
    | RunRes.fnf =>
        { fs := fs, prints := [], gitCalls := [command], stats := [cfg.bareRepoDir],
          term := friendly_error_messages cfg PyExc.fileNotFoundError }
    | RunRes.cpe _ =>
        { fs := fs, prints := [], gitCalls := [command], stats := [cfg.bareRepoDir],
          term := friendly_error_messages cfg PyExc.settingShowUntrackedFilesFailure }
    | RunRes.completed cp =>
        { fs := fs, prints := [], gitCalls := [command], stats := [cfg.bareRepoDir],
          term := Termination.exitCode cp.returncode }

/-- The warning line `main` prints for one ignored argument (source line 272). -/
def warnLine (a : String) : String := "Ignoring \"" ++ a ++ "\" argument"

/-- The warning lines printed by `main` (source lines 271-272): one per
element of the ignored-argument set. -/
def mainWarnings (argv : List String) : List String :=
  (parse_command argv).ignored_args.map warnLine

-- helper lemmas for C8

/-- The warning lines for two blacklisted flags are equal exactly when the
flags are equal. -/
theorem warnLine_beq (f x : String) (hf : f ∈ IGNORED_ARGS) (hx : x ∈ IGNORED_ARGS) :
    (warnLine f == warnLine x) = (f == x) := by
  simp only [IGNORED_ARGS, List.mem_cons, List.not_mem_nil, or_false] at hf hx
  rcases hf with rfl | rfl | rfl <;> rcases hx with rfl | rfl | rfl <;> decide

/-- Counting a flag's warning line in the mapped warnings counts the flag. -/
theorem count_map_warnLine (l : List String) (hl : ∀ x ∈ l, x ∈ IGNORED_ARGS)
    (f : String) (hf : f ∈ IGNORED_ARGS) :
    (l.map warnLine).count (warnLine f) = l.count f := by
  induction l with
  | nil => rfl
  | cons x t ih =>
    have hx : x ∈ IGNORED_ARGS := hl x (List.mem_cons_self x t)
    have ht : ∀ y ∈ t, y ∈ IGNORED_ARGS := fun y hy => hl y (List.mem_cons_of_mem x hy)
    simp only [List.map_cons, List.count_cons, ih ht, warnLine_beq x f hx hf]

/-- Claim C1 (code bug): pass-through with repository present, cwd inside home
and executable found forwards the tool's exit code only when it is 0; a tool
exit code of 2 instead terminates through the settings-failure message, with
process exit status 1. -/
theorem C1_passthrough_exit_code_evaluation :
    (run_git cfgDefault ["homegit", "status"] "/home/user" ⟨true, true⟩
        ⟨true, 0, []⟩).term = Termination.exitCode 0
  ∧ (run_git cfgDefault ["homegit", "status"] "/home/user" ⟨true, true⟩
        ⟨true, 2, []⟩).term
      = Termination.exitMsg "Error setting status.showUntrackedFiles for default"
  ∧ Termination.code ((run_git cfgDefault ["homegit", "status"] "/home/user" ⟨true, true⟩
        ⟨true, 2, []⟩).term) = 1 := ⟨rfl, rfl, rfl⟩

/-- Claim C2 (code bug): when the bare-repo directory exists, `clone_repo`
raises `ExistingRepoDir` for every captured origin output and every requested
URL — also when the captured bytes spell exactly the requested URL — because
the captured standard output is `bytes` while the URL is `str`, and Python
equality across these types is always false.  The already-cloned branch is
unreachable. -/
theorem C2_clone_existing_same_url_raises (b : Bool) (stdoutBytes : List Nat)
    (url : String) (rClone : GitResult) :
    (clone_repo cfgDefault ⟨b, true⟩ url ⟨true, 0, stdoutBytes⟩ rClone).res
      = StepExit.raised PyExc.existingRepoDir
  ∧ (clone_repo cfgDefault ⟨b, true⟩ url ⟨true, 0, stdoutBytes⟩ rClone).fs = ⟨b, true⟩
  ∧ (run_clone cfgDefault ["homegit", "clone", url] ⟨b, true⟩ ⟨true, 0, stdoutBytes⟩
        rClone rClone rClone).term
      = Termination.exitMsg "Existing repo: default (/home/user/.homegit/default)" :=
  ⟨rfl, rfl, rfl⟩

/-- Claim C2 witness: the theorem applied at a concrete URL whose exact bytes
are the captured origin output. -/
theorem C2_witness :
    (clone_repo cfgDefault ⟨true, true⟩ "u" ⟨true, 0, [117]⟩ ⟨true, 0, []⟩).res
      = StepExit.raised PyExc.existingRepoDir :=
  (C2_clone_existing_same_url_raises true [117] "u" ⟨true, 0, []⟩).1

/-- Claim C3 counterexample: with the storage root missing and the bare-repo
directory absent, Init does not create the storage root, and the launch
failure surfaces as `FileNotFoundError`, not `InitFailure` — contradicting
the claim that Init first creates the storage root and translates launch
failures to `InitFailure`. -/
theorem C3_counterexample :
    ((init_repo cfgDefault ⟨false, false⟩ ⟨true, 0, []⟩).fs.homegitDirExists = false)
  ∧ ((init_repo cfgDefault ⟨false, false⟩ ⟨true, 0, []⟩).res
      = StepExit.raised PyExc.fileNotFoundError) := ⟨rfl, rfl⟩

/-- Claim C3 (amended): with the bare-repo directory absent, Init never
creates (nor removes) the storage root; a non-zero exit of the external tool
raises `InitFailure`; a launch failure (missing executable or missing storage
root) raises `FileNotFoundError` instead. -/
theorem C3_init_no_storage_root_creation (cfg : Config) (fs : FS) (r : GitResult)
    (h : fs.bareRepoDirExists = false) :
    ((init_repo cfg fs r).fs.homegitDirExists = fs.homegitDirExists)
  ∧ ((r.found && fs.homegitDirExists) = true → r.returncode ≠ 0 →
      (init_repo cfg fs r).res = StepExit.raised PyExc.initFailure)
  ∧ ((r.found && fs.homegitDirExists) = false →
      (init_repo cfg fs r).res = StepExit.raised PyExc.fileNotFoundError) := by
  cases hl : (r.found && fs.homegitDirExists) with
  | false =>
    refine ⟨?_, ?_, ?_⟩ <;> simp [init_repo, run, bare_repo_dir_exists, h, hl]
  | true =>
    by_cases hr : r.returncode = 0
    · refine ⟨?_, ?_, ?_⟩ <;> simp [init_repo, run, bare_repo_dir_exists, h, hl, hr]
    · refine ⟨?_, ?_, ?_⟩ <;> simp [init_repo, run, bare_repo_dir_exists, h, hl, hr]

/-- Claim C3 witness: the amended theorem applied with the storage root
present and the tool exiting 3. -/
theorem C3_witness :
    (init_repo cfgDefault ⟨true, false⟩ ⟨true, 3, []⟩).res
      = StepExit.raised PyExc.initFailure :=
  (C3_init_no_storage_root_creation cfgDefault ⟨true, false⟩ ⟨true, 3, []⟩ rfl).2.1
    rfl (by decide)

/-- Claim C4 counterexample: the first token "INIT" classifies to the
pass-through action while "init" classifies to Init, so classification is not
case-insensitive. -/
theorem C4_counterexample :
    (parse_command ["homegit", "INIT"]).command = some Command.GIT
  ∧ (parse_command ["homegit", "init"]).command = some Command.INIT := ⟨rfl, rfl⟩

/-- Claim C4 (amended): classification of the first token is case-sensitive:
exactly the lowercase command literals and the convenience flags map to their
actions, and any first token outside the lookup table — including any other
casing such as "INIT" — classifies to pass-through. -/
theorem C4_case_sensitive_classification :
    ((parse_command ["homegit", "init"]).command = some Command.INIT)
  ∧ ((parse_command ["homegit", "clone"]).command = some Command.CLONE)
  ∧ ((parse_command ["homegit", "help"]).command = some Command.HELP)
  ∧ ((parse_command ["homegit", "version"]).command = some Command.VERSION)
  ∧ ((parse_command ["homegit", "untrack"]).command = some Command.UNTRACK)
  ∧ ((parse_command ["homegit", "--version"]).command = some Command.VERSION)
  ∧ ((parse_command ["homegit", "-v"]).command = some Command.VERSION)
  ∧ ((parse_command ["homegit", "--help"]).command = some Command.HELP)
  ∧ ((parse_command ["homegit", "-h"]).command = some Command.HELP)
  ∧ ((parse_command ["homegit", "INIT"]).command = some Command.GIT)
  ∧ (∀ prog tok rest, command_dict.lookup tok = none →
      (parse_command (prog :: tok :: rest)).command = some Command.GIT) := by
  refine ⟨rfl, rfl, rfl, rfl, rfl, rfl, rfl, rfl, rfl, rfl, ?_⟩
  intro prog tok rest hnone
  simp [parse_command, hnone]

/-- Claim C4 witness: the amended theorem applied at the unrecognized token
"status". -/
theorem C4_witness :
    (parse_command ["homegit", "status"]).command = some Command.GIT :=
  C4_case_sensitive_classification.2.2.2.2.2.2.2.2.2.2 "homegit" "status" [] (by decide)

/-- Claim C5 (code bug): the location check is a character-wise common-lead
comparison, so a sibling directory such as "/home/userx" — which is not inside
the home directory "/home/user" path-wise — passes the check and the external
tool is invoked from there, instead of the invocation failing with the
location error. -/
theorem C5_sibling_cwd_accepted :
    withinHomePathSpec "/home/userx" "/home/user" = false
  ∧ is_within_home_dir "/home/userx" "/home/user" = true
  ∧ (run_git cfgDefault ["homegit", "status"] "/home/userx" ⟨true, true⟩
        ⟨true, 0, []⟩).gitCalls
      = [["/usr/bin/git", "--git-dir=/home/user/.homegit/default",
          "--work-tree=/home/user", "status"]]
  ∧ (run_git cfgDefault ["homegit", "status"] "/home/userx" ⟨true, true⟩
        ⟨true, 0, []⟩).term = Termination.exitCode 0 := ⟨rfl, rfl, rfl, rfl⟩

/-- Claim C6: a pass-through invocation while the bare-repo directory is
absent exits with the unknown-repo message (process status 1, non-zero) and
never invokes the external tool. -/
theorem C6_passthrough_absent_repo (cfg : Config) (argv : List String) (cwd : String)
    (fs : FS) (r : GitResult) (h : fs.bareRepoDirExists = false) :
    (run_git cfg argv cwd fs r).term
      = Termination.exitMsg
          ("Unknown repo: " ++ cfg.homegitRepo ++ " (" ++ cfg.bareRepoDir ++ ")")
  ∧ (run_git cfg argv cwd fs r).gitCalls = []
  ∧ Termination.code ((run_git cfg argv cwd fs r).term) = 1 := by
  refine ⟨?_, ?_, ?_⟩ <;> simp [run_git, bare_repo_dir_exists, h, Termination.code]

/-- Claim C6 witness: the theorem applied at the default configuration with
the bare-repo directory absent. -/
theorem C6_witness :
    (run_git cfgDefault ["homegit", "status"] "/home/user" ⟨true, false⟩
        ⟨true, 0, []⟩).term
      = Termination.exitMsg "Unknown repo: default (/home/user/.homegit/default)"
  ∧ (run_git cfgDefault ["homegit", "status"] "/home/user" ⟨true, false⟩
        ⟨true, 0, []⟩).gitCalls = [] := by
  have h := C6_passthrough_absent_repo cfgDefault ["homegit", "status"] "/home/user"
    ⟨true, false⟩ ⟨true, 0, []⟩ rfl
  exact ⟨h.1, h.2.1⟩

/-- Claim C7: Init with the bare-repo directory already present exits through
the `ExistingRepoDir` friendly message, leaves the filesystem state unchanged
and never invokes the external tool. -/
theorem C7_init_existing_refused (cfg : Config) (fs : FS) (rInit rCfgSet : GitResult)
    (h : fs.bareRepoDirExists = true) :
    (run_init cfg fs rInit rCfgSet).term
      = Termination.exitMsg
          ("Existing repo: " ++ cfg.homegitRepo ++ " (" ++ cfg.bareRepoDir ++ ")")
  ∧ (run_init cfg fs rInit rCfgSet).fs = fs
  ∧ (run_init cfg fs rInit rCfgSet).gitCalls = [] := by
  refine ⟨?_, ?_, ?_⟩ <;>
    simp [run_init, init_repo, bare_repo_dir_exists, h, Step.andThen, withFriendly,
      friendly_error_messages]

/-- Claim C7 witness: the theorem applied at the default configuration with
the bare-repo directory present. -/
theorem C7_witness :
    (run_init cfgDefault ⟨true, true⟩ ⟨true, 0, []⟩ ⟨true, 0, []⟩).term
      = Termination.exitMsg "Existing repo: default (/home/user/.homegit/default)"
  ∧ (run_init cfgDefault ⟨true, true⟩ ⟨true, 0, []⟩ ⟨true, 0, []⟩).fs = ⟨true, true⟩ := by
  have h := C7_init_existing_refused cfgDefault ⟨true, true⟩ ⟨true, 0, []⟩ ⟨true, 0, []⟩ rfl
  exact ⟨h.1, h.2.1⟩

/-- Claim C8: each distinct blacklisted flag appearing anywhere in the raw
arguments yields exactly one warning line; the dispatched action depends only
on the second token; and the pass-through invocation forwards all tokens after
the program name unmodified (the flags are never stripped). -/
theorem C8_ignored_flags (argv : List String) :
    (∀ f, f ∈ IGNORED_ARGS →
      (mainWarnings argv).count (warnLine f) = if f ∈ argv then 1 else 0)
  ∧ (∀ argv2 : List String, argv[1]? = argv2[1]? →
      (parse_command argv).command = (parse_command argv2).command)
  ∧ (∀ cfg cwd fs r, fs.bareRepoDirExists = true →
      is_within_home_dir cwd cfg.home = true →
      (run_git cfg argv cwd fs r).gitCalls
        = [[cfg.gitExecutable, "--git-dir=" ++ cfg.bareRepoDir,
            "--work-tree=" ++ cfg.home] ++ argv.drop 1]) := by
  refine ⟨?_, ?_, ?_⟩
  · intro f hf
    simp only [mainWarnings, parse_command]
    have hsub : ∀ x ∈ (argv.filter fun a => decide (a ∈ IGNORED_ARGS)).dedup,
        x ∈ IGNORED_ARGS := by
      intro x hx
      have h1 := List.mem_dedup.mp hx
      have h2 := List.mem_filter.mp h1
      simpa using h2.2
    rw [count_map_warnLine _ hsub f hf, List.count_dedup]
    by_cases hm : f ∈ argv
    · rw [if_pos hm, if_pos (List.mem_filter.mpr ⟨hm, by simpa using hf⟩)]
    · rw [if_neg hm, if_neg (fun hc => hm (List.mem_of_mem_filter hc))]
  · intro argv2 h12
    simp only [parse_command]
    rw [h12]
  · intro cfg cwd fs r h1 h2
    simp only [run_git, bare_repo_dir_exists, h1, h2, Bool.not_true, Bool.false_eq_true,
      if_false]
    cases run true r.found r with
    | completed cp => rfl
    | cpe c => rfl
    | fnf => rfl

/-- Claim C8 witness: a doubled "--bare" token yields exactly one warning
line. -/
theorem C8_witness :
    (mainWarnings ["homegit", "status", "--bare", "--bare"]).count (warnLine "--bare")
      = 1 := by
  have h := (C8_ignored_flags ["homegit", "status", "--bare", "--bare"]).1 "--bare"
    (by decide)
  rw [if_pos (by decide : ("--bare" : String) ∈ ["homegit", "status", "--bare", "--bare"])] at h
  exact h

/-- Claim C9: Untrack performs no existence probe; when the bare-repo
directory is present it removes it, terminates normally and prints the success
line; when it is absent the filesystem error propagates unhandled — it is not
translated into any friendly exit message. -/
theorem C9_untrack (cfg : Config) (fs : FS) :
    (run_untrack cfg fs).stats = []
  ∧ (fs.bareRepoDirExists = true →
      (run_untrack cfg fs).fs.bareRepoDirExists = false
      ∧ (run_untrack cfg fs).term = Termination.normal
      ∧ (run_untrack cfg fs).prints
          = ["Stopped tracking homegit repo at " ++ cfg.bareRepoDir])
  ∧ (fs.bareRepoDirExists = false →
      (run_untrack cfg fs).term = Termination.unhandled PyExc.fileNotFoundError
      ∧ ∀ m, (run_untrack cfg fs).term ≠ Termination.exitMsg m) := by
  cases hb : fs.bareRepoDirExists <;> refine ⟨?_, ?_, ?_⟩ <;> simp [run_untrack, hb]

/-- Claim C9 witness: the theorem applied with the bare-repo directory
present. -/
theorem C9_witness :
    (run_untrack cfgDefault ⟨true, true⟩).fs.bareRepoDirExists = false
  ∧ (run_untrack cfgDefault ⟨true, true⟩).term = Termination.normal := by
  have h := (C9_untrack cfgDefault ⟨true, true⟩).2.1 rfl
  exact ⟨h.1, h.2.1⟩

/-- Claim C10: a Clone-classified invocation whose argument list does not have
exactly three tokens terminates with an unhandled ValueError from the tuple
unpacking: no friendly message, no repository-state probe, no directory
creation, no external-tool invocation. -/
theorem C10_clone_arity (cfg : Config) (argv : List String) (fs : FS)
    (r1 r2 r3 r4 : GitResult)
    (hclone : (parse_command argv).command = some Command.CLONE)
    (hlen : argv.length ≠ 3) :
    run_clone cfg argv fs r1 r2 r3 r4
      = { fs := fs, prints := [], gitCalls := [], stats := [],
          term := Termination.unhandled PyExc.valueError } := by
  rcases argv with _ | ⟨a, _ | ⟨b, _ | ⟨c, _ | ⟨d, t⟩⟩⟩⟩
  · rfl
  · rfl
  · rfl
  · exact absurd rfl hlen
  · rfl

/-- Claim C10 witness: the theorem applied at the two-token invocation
"homegit clone". -/
theorem C10_witness :
    run_clone cfgDefault ["homegit", "clone"] ⟨false, false⟩ ⟨true, 0, []⟩ ⟨true, 0, []⟩
        ⟨true, 0, []⟩ ⟨true, 0, []⟩
      = { fs := ⟨false, false⟩, prints := [], gitCalls := [], stats := [],
          term := Termination.unhandled PyExc.valueError } :=
  C10_clone_arity cfgDefault ["homegit", "clone"] ⟨false, false⟩ ⟨true, 0, []⟩
    ⟨true, 0, []⟩ ⟨true, 0, []⟩ ⟨true, 0, []⟩ (by decide) (by decide)

end Homegit
